import Mathlib

/-!
Verification of the Snackoverflow livability-score pipeline.

The repository aggregates air-quality, weather and transit signals for a
coordinate into a weighted composite score.  This file shallowly embeds the
scoring pipeline: Python floats are modelled as exact rationals (reals where
the trigonometric haversine distance is involved), Python exceptions as
`Except`/`Option`, and the dict-shaped API responses as optional-field
structures.  The built-in Python `round` (round-half-to-even) is modelled
explicitly.
-/

namespace Snack

/-- Round-half-to-even to the nearest integer, modelling the Python built-in
`round` on exact values. -/
def roundHE {α : Type} [LinearOrderedField α] [FloorRing α] (x : α) : ℤ :=
  if x - ⌊x⌋ < 1/2 then ⌊x⌋
  else if 1/2 < x - ⌊x⌋ then ⌊x⌋ + 1
  else if ⌊x⌋ % 2 = 0 then ⌊x⌋ else ⌊x⌋ + 1

/-- Python `round(x, 1)`. -/
def pyRound1 {α : Type} [LinearOrderedField α] [FloorRing α] (x : α) : α :=
  (roundHE (x * 10) : α) / 10

/-- Python `round(x, 2)`. -/
def pyRound2 {α : Type} [LinearOrderedField α] [FloorRing α] (x : α) : α :=
  (roundHE (x * 100) : α) / 100

section RoundLemmas

variable {α : Type} [LinearOrderedField α] [FloorRing α]

/-- The half-even rounding never moves a value up by more than one half. -/
theorem roundHE_le_add_half (x : α) : (roundHE x : α) ≤ x + 1/2 := by
  have hfl : (⌊x⌋ : α) ≤ x := Int.floor_le x
  unfold roundHE
  split
  · linarith
  · split
    · push_cast
      linarith
    · split
      · linarith
      · push_cast
        linarith

/-- The half-even rounding never moves a value down by more than one half. -/
theorem sub_half_le_roundHE (x : α) : x - 1/2 ≤ (roundHE x : α) := by
  have hlt : x < ⌊x⌋ + 1 := Int.lt_floor_add_one x
  unfold roundHE
  split
  · linarith
  · split
    · push_cast
      linarith
    · split
      · linarith
      · push_cast
        linarith

/-- Round-half-to-even is monotone. -/
theorem roundHE_mono {x y : α} (hxy : x ≤ y) : roundHE x ≤ roundHE y := by
  have hfl : ⌊x⌋ ≤ ⌊y⌋ := Int.floor_mono hxy
  unfold roundHE
  repeat' split
  all_goals try omega
  all_goals
    rcases lt_or_eq_of_le hfl with h | h
    · omega
    · exfalso
      have hc : ((⌊x⌋ : α)) = ((⌊y⌋ : α)) := by exact_mod_cast h
      linarith

/-- Evaluation rule: a value whose multiple lies in the lower half of its unit
interval rounds down. -/
theorem roundHE_eq_low (n : ℤ) {x : α} (h1 : (n : α) ≤ x) (h2 : x < (n : α) + 1/2) :
    roundHE x = n := by
  have hfl : ⌊x⌋ = n := Int.floor_eq_iff.mpr ⟨h1, by linarith⟩
  have hc : x - ((n : ℤ) : α) < 1/2 := by linarith
  rw [roundHE, hfl, if_pos hc]

/-- Evaluation rule: a value whose multiple lies in the upper half of its unit
interval rounds up. -/
theorem roundHE_eq_high (n : ℤ) {x : α} (h1 : (n : α) + 1/2 < x) (h2 : x < (n : α) + 1) :
    roundHE x = n + 1 := by
  have hfl : ⌊x⌋ = n := Int.floor_eq_iff.mpr ⟨by linarith, by linarith⟩
  have hc1 : ¬ (x - ((n : ℤ) : α) < 1/2) := by push_neg; linarith
  have hc2 : (1:α)/2 < x - ((n : ℤ) : α) := by linarith
  rw [roundHE, hfl, if_neg hc1, if_pos hc2]

theorem pyRound1_eq_low (n : ℤ) {x r : α} (h1 : (n : α) ≤ x * 10)
    (h2 : x * 10 < (n : α) + 1/2) (h3 : (n : α) / 10 = r) : pyRound1 x = r := by
  rw [pyRound1, roundHE_eq_low n h1 h2, h3]

theorem pyRound1_eq_high (n : ℤ) {x r : α} (h1 : (n : α) + 1/2 < x * 10)
    (h2 : x * 10 < (n : α) + 1) (h3 : ((n : α) + 1) / 10 = r) : pyRound1 x = r := by
  rw [pyRound1, roundHE_eq_high n h1 h2]
  push_cast
  exact h3

theorem pyRound2_eq_low (n : ℤ) {x r : α} (h1 : (n : α) ≤ x * 100)
    (h2 : x * 100 < (n : α) + 1/2) (h3 : (n : α) / 100 = r) : pyRound2 x = r := by
  rw [pyRound2, roundHE_eq_low n h1 h2, h3]

theorem pyRound1_mono {x y : α} (hxy : x ≤ y) : pyRound1 x ≤ pyRound1 y := by
  have h := roundHE_mono (by linarith : x * 10 ≤ y * 10)
  have h' : ((roundHE (x*10) : ℤ) : α) ≤ ((roundHE (y*10) : ℤ) : α) := by exact_mod_cast h
  rw [pyRound1, pyRound1]
  linarith

theorem pyRound1_le {x b : α} (hx : x ≤ b) (hb : ∃ n : ℤ, (n : α) = b * 10) :
    pyRound1 x ≤ b := by
  obtain ⟨n, hn⟩ := hb
  have h1 : (roundHE (x*10) : α) ≤ x * 10 + 1/2 := roundHE_le_add_half _
  have hlt : ((roundHE (x*10) : ℤ) : α) < ((n + 1 : ℤ) : α) := by push_cast; linarith
  have h2 : roundHE (x*10) < n + 1 := by exact_mod_cast hlt
  have h3 : ((roundHE (x*10) : ℤ) : α) ≤ (n : α) := by exact_mod_cast Int.lt_add_one_iff.mp h2
  rw [pyRound1]
  linarith [hn]

theorem le_pyRound1 {x b : α} (hx : b ≤ x) (hb : ∃ n : ℤ, (n : α) = b * 10) :
    b ≤ pyRound1 x := by
  obtain ⟨n, hn⟩ := hb
  have h1 : x * 10 - 1/2 ≤ (roundHE (x*10) : α) := sub_half_le_roundHE _
  have hlt : ((n - 1 : ℤ) : α) < ((roundHE (x*10) : ℤ) : α) := by push_cast; linarith
  have h2 : n - 1 < roundHE (x*10) := by exact_mod_cast hlt
  have h3 : (n : α) ≤ ((roundHE (x*10) : ℤ) : α) := by
    exact_mod_cast (by omega : n ≤ roundHE (x*10))
  rw [pyRound1]
  linarith [hn]

end RoundLemmas

/-- Boolean test that `pat` occurs as a contiguous infix of `l`. -/
def listInfix {β : Type} [BEq β] (pat : List β) (l : List β) : Bool :=
  match l with
  | [] => pat.isEmpty
  | _ :: t => pat.isPrefixOf l || listInfix pat t

/-- Boolean substring containment on strings. -/
def containsSub (s pat : String) : Bool :=
  listInfix pat.toList s.toList

/-- Model of Python `str.title` on a list of characters: the first character
of every alphabetic run is upper-cased, the rest lower-cased. -/
def pyTitleGo : Bool → List Char → List Char
  | _, [] => []
  | prevAlpha, c :: t =>
    if c.isAlpha then
      (if prevAlpha then c.toLower else c.toUpper) :: pyTitleGo true t
    else
      c :: pyTitleGo false t

/-- Model of Python `str.title`. -/
def pyTitle (s : String) : String :=
  String.mk (pyTitleGo false s.toList)

/-- Optional-field model of the nested `index` object of the air-quality API
response (`data.get('index', {})`; a missing object has both fields absent). -/
structure AirIndex where
  value : Option ℚ
  qualification : Option String

/-- Optional-field model of the JSON body of the air-quality API response. -/
structure AirBody where
  found : Bool
  index : AirIndex

/-- Optional-field model of the nested `parameters` object of the weather API
response (`data.get("parameters", {}).get("temperature", {}).get("value")`). -/
structure WeatherParams where
  temperature : Option ℚ
  weather_condition : Option String

/-- Optional-field model of the JSON body of the weather API response. -/
structure WeatherBody where
  parameters : WeatherParams

namespace AppServer

def DEFAULT_SCORE : ℚ := 5.5

def DEFAULT_DESCRIPTION : String := "Data unavailable"

/-- Embedding of `_scale_maqi_to_score` from app.py: clamp the MAQI to
[0, 100], scale linearly with slope (1-10)/(100-0), floor at 1.0, round to
one decimal with the Python built-in `round`. -/
def scale_maqi_to_score (maqi_value : ℚ) : ℚ :=
  let MAQI_MIN : ℚ := 0
  let MAQI_MAX : ℚ := 100
  let SCORE_MAX : ℚ := 10
  let SCORE_MIN : ℚ := 1
  let maqi_clamped := max MAQI_MIN (min MAQI_MAX maqi_value)
  let slope := (SCORE_MIN - SCORE_MAX) / (MAQI_MAX - MAQI_MIN)
  let score := slope * maqi_clamped + SCORE_MAX
  pyRound1 (max SCORE_MIN score)

/-- Embedding of `get_air_quality_score` from app.py.  The `apiKey` argument
models the module-level API_KEY global; the `fetch` argument models the
outcome of the requests.get / raise_for_status / json() block, with
`Except.error` covering network failure, non-200 status and malformed body.
The embedding is a total function: every exception path of the source is a
value here, so the adapter never propagates an exception. -/
def get_air_quality_score (apiKey : Option String) (fetch : Except String AirBody) :
    ℚ × String :=
  match apiKey with
  | none => (DEFAULT_SCORE, "Air: Data unavailable (no API key)")
  | some _ =>
    match fetch with
    | .error _ => (DEFAULT_SCORE, "Air: " ++ DEFAULT_DESCRIPTION)
    | .ok data =>
      if data.found then
        match data.index.value with
        | some v => (scale_maqi_to_score v, "Air: " ++ data.index.qualification.getD ("Unknown"))
        | none => (DEFAULT_SCORE, "Air: " ++ DEFAULT_DESCRIPTION)
      else (DEFAULT_SCORE, "Air: " ++ DEFAULT_DESCRIPTION)

def OPTIMAL_TEMP : ℚ := 25

/-- Embedding of `WeatherService.calculate_weather_rating` from app.py:
missing temperature gives the default score, otherwise the rating is
max(1.0, 10 - (|temp - 25| / 65) * 10) rounded to one decimal. -/
def calculate_weather_rating (data : WeatherBody) : ℚ :=
  match data.parameters.temperature with
  | none => DEFAULT_SCORE
  | some temp =>
    let deviation := |temp - OPTIMAL_TEMP|
    let rating := max 1 (10 - (deviation / 65) * 10)
    pyRound1 rating

/-- Embedding of `WeatherService.describe_weather` from app.py. -/
def describe_weather (data : WeatherBody) : String :=
  let params := data.parameters
  let condition := pyTitle (params.weather_condition.getD ("Unknown"))
  match params.temperature with
  | none => "Weather: " ++ condition
  | some temp =>
    let desc :=
      if temp < 0 then "Freezing"
      else if temp < 10 then "Cold"
      else if temp < 20 then "Cool"
      else if temp < 28 then "Pleasant"
      else if temp < 35 then "Warm"
      else "Hot"
    "Weather: " ++ condition ++ ", " ++ desc ++ " (" ++ toString temp ++ "°C)"

/-- Embedding of `get_weather_score` from app.py: missing key short-circuits;
otherwise any exception from the fetch is caught and mapped to the default;
on success the rating and the human-readable account are computed. -/
def get_weather_score (apiKey : Option String) (fetch : Except String WeatherBody) :
    ℚ × String :=
  match apiKey with
  | none => (DEFAULT_SCORE, "Weather: API key missing")
  | some _ =>
    match fetch with
    | .error _ => (DEFAULT_SCORE, "Weather: " ++ DEFAULT_DESCRIPTION)
    | .ok data => (calculate_weather_rating data, describe_weather data)

end AppServer

namespace AirFetcher

def DEFAULT_SCORE : ℚ := 5.5

def DEFAULT_DESCRIPTION : String := "Moderate (Data unavailable)"

def DEFAULT_MEERSENS_INDEX : ℚ := 50

/-- Embedding of `_scale_maqi_to_score` from air_api_fetcher.py: clamp to
[0, 100], scale linearly, format to one decimal (`float(f-string .1f)` is
round-half-even, the same rounding as the Python built-in `round`). -/
def scale_maqi_to_score (maqi_value : ℚ) : ℚ :=
  let MAQI_MIN : ℚ := 0
  let MAQI_MAX : ℚ := 100
  let SCORE_MAX : ℚ := 10
  let SCORE_MIN : ℚ := 1
  let maqi_clamped := max MAQI_MIN (min MAQI_MAX maqi_value)
  let slope := (SCORE_MIN - SCORE_MAX) / (MAQI_MAX - MAQI_MIN)
  let intercept := SCORE_MAX - slope * MAQI_MIN
  let score := slope * maqi_clamped + intercept
  pyRound1 score

/-- Embedding of `get_current_air` from air_api_fetcher.py.  The argument
models the result of `_fetch_data`: `none` when the fetch failed (missing
key, network failure after retries, non-200 status, malformed body), `some`
with the parsed body otherwise. -/
def get_current_air (air_data : Option AirBody) : ℚ × ℚ × String :=
  match air_data with
  | some data =>
    if data.found then
      match data.index.value with
      | some v =>
        let score := scale_maqi_to_score v
        let qualification := data.index.qualification.getD ("None")
        (score, v, qualification ++ " (MAQI: " ++ toString score ++ ")")
      | none => (DEFAULT_SCORE, DEFAULT_MEERSENS_INDEX, "Data Unavailable - " ++ DEFAULT_DESCRIPTION)
    else (DEFAULT_SCORE, DEFAULT_MEERSENS_INDEX, "Data Unavailable - " ++ DEFAULT_DESCRIPTION)
  | none => (DEFAULT_SCORE, DEFAULT_MEERSENS_INDEX, "Data Unavailable - " ++ DEFAULT_DESCRIPTION)

end AirFetcher

namespace WeatherPy

def OPTIMAL_TEMP : ℚ := 25

/-- Embedding of `WeatherService.calculate_weather_rating` from weather.py:
raises ValueError on a missing temperature (modelled as `Except.error`),
floors the rating at 0 and rounds to two decimals. -/
def calculate_weather_rating (weather_data : WeatherBody) : Except String ℚ :=
  match weather_data.parameters.temperature with
  | none => .error ("Temperature value not found in weather data")
  | some temperature =>
    let max_deviation : ℚ := 65
    let deviation := |temperature - OPTIMAL_TEMP|
    let rating := max 0 (10 - (deviation / max_deviation) * 10)
    .ok (pyRound2 rating)

end WeatherPy

namespace TransitScore

def CALGARY_DOWNTOWN_LAT : ℝ := 51.045

def CALGARY_DOWNTOWN_LNG : ℝ := -114.075

/-- Model of `math.atan2`. -/
noncomputable def atan2 (y x : ℝ) : ℝ :=
  if 0 < x then Real.arctan (y / x)
  else if x < 0 ∧ 0 ≤ y then Real.arctan (y / x) + Real.pi
  else if x < 0 ∧ y < 0 then Real.arctan (y / x) - Real.pi
  else if x = 0 ∧ 0 < y then Real.pi / 2
  else if x = 0 ∧ y < 0 then -(Real.pi / 2)
  else 0

/-- Model of `math.radians`. -/
noncomputable def radians (deg : ℝ) : ℝ := deg * Real.pi / 180

/-- Embedding of `_haversine_distance` from transit_score.py. -/
noncomputable def haversine_distance (lat1 lon1 lat2 lon2 : ℝ) : ℝ :=
  let R : ℝ := 6371
  let lat1_rad := radians lat1
  let lon1_rad := radians lon1
  let lat2_rad := radians lat2
  let lon2_rad := radians lon2
  let dlon := lon2_rad - lon1_rad
  let dlat := lat2_rad - lat1_rad
  let a := Real.sin (dlat / 2) ^ 2
    + Real.cos lat1_rad * Real.cos lat2_rad * Real.sin (dlon / 2) ^ 2
  let c := 2 * atan2 (Real.sqrt a) (Real.sqrt (1 - a))
  R * c

/-- The distance-to-score mapping inside `get_transit_score` from
transit_score.py: clamp the distance at 15 km, scale linearly from 10 down to
2, floor at 1.0, round to one decimal. -/
noncomputable def transit_score_of_distance (distance_km : ℝ) : ℝ :=
  let MAX_DISTANCE_KM : ℝ := 15
  let SCORE_MAX : ℝ := 10
  let SCORE_MIN : ℝ := 2
  let clamped_distance_km := min distance_km MAX_DISTANCE_KM
  let score := SCORE_MAX + clamped_distance_km * (SCORE_MIN - SCORE_MAX) / MAX_DISTANCE_KM
  pyRound1 (max 1 score)

/-- Embedding of `get_transit_score` from transit_score.py.  The description
keeps the qualifier band of the source; the interpolated formatted distance
suffix is not modelled (no claim concerns it). -/
noncomputable def get_transit_score (latitude longitude : ℝ) : ℝ × String :=
  let distance_km := haversine_distance latitude longitude
    CALGARY_DOWNTOWN_LAT CALGARY_DOWNTOWN_LNG
  let score := transit_score_of_distance distance_km
  let desc_qualifier :=
    if 8.5 ≤ score then "Excellent Access (Walkable to LRT)"
    else if 6 ≤ score then "Good Access (Main Bus Route Coverage)"
    else "Limited Access (Suburban/Car Dependent)"
  (score, "Transit: " ++ desc_qualifier)

end TransitScore

namespace AppServer

/-- The module-level WEIGHTS dictionary of app.py. -/
structure WeightConfig where
  air_quality : ℚ
  weather_rating : ℚ
  transit_score : ℚ

def WEIGHTS : WeightConfig :=
  { air_quality := 0.40, weather_rating := 0.30, transit_score := 0.30 }

def weightsSum (w : WeightConfig) : ℚ :=
  w.air_quality + w.weather_rating + w.transit_score

/-- Embedding of the module-level weight check of app.py: at import time,
before any request is served, a ValueError is raised unless the weights sum
to 1.0 within 0.001. -/
def load_weights (w : WeightConfig) : Except String WeightConfig :=
  if 0.001 < |weightsSum w - 1| then
    .error ("The weights in the WEIGHTS dictionary must sum to 1.0.")
  else .ok w

/-- One entry of the per-factor breakdown returned by the composite scorer. -/
structure FactorEntry where
  score : ℝ
  desc : String
  weight : ℚ

/-- The dictionary returned by `calculate_city_quality_score`. -/
structure CompositeResult where
  city_quality_score : ℝ
  air_quality : FactorEntry
  weather_rating : FactorEntry
  transit_score : FactorEntry

/-- Embedding of `calculate_city_quality_score` from app.py, parametrised by
the upstream outcomes: the API key global, the air fetch outcome and the
weather fetch outcome.  The transit factor is pure and needs no upstream
input. -/
noncomputable def calculate_city_quality_score (lat lon : ℝ) (apiKey : Option String)
    (airFetch : Except String AirBody) (weatherFetch : Except String WeatherBody) :
    CompositeResult :=
  let air := get_air_quality_score apiKey airFetch
  let weather := get_weather_score apiKey weatherFetch
  let transit := TransitScore.get_transit_score lat lon
  let total := (air.1 : ℝ) * (WEIGHTS.air_quality : ℝ)
    + (weather.1 : ℝ) * (WEIGHTS.weather_rating : ℝ)
    + transit.1 * (WEIGHTS.transit_score : ℝ)
  { city_quality_score := pyRound1 total
    air_quality := { score := (air.1 : ℝ), desc := air.2, weight := WEIGHTS.air_quality }
    weather_rating := { score := (weather.1 : ℝ), desc := weather.2, weight := WEIGHTS.weather_rating }
    transit_score := { score := transit.1, desc := transit.2, weight := WEIGHTS.transit_score } }

end AppServer

/-! Helper lemmas: closed forms of the scaling functions. -/

/-- Normal form of the app.py air scaling: the floor `max 1` inside the source
is redundant because the clamped MAQI keeps the linear score within [1, 10]. -/
theorem scale_maqi_app_normal (m : ℚ) :
    AppServer.scale_maqi_to_score m = pyRound1 (10 - 9/100 * max 0 (min 100 m)) := by
  simp only [AppServer.scale_maqi_to_score]
  congr 1
  have hc : max (0:ℚ) (min 100 m) ≤ 100 := max_le (by norm_num) (min_le_left _ _)
  have hlin : ((1:ℚ) - 10) / (100 - 0) * max 0 (min 100 m) + 10
      = 10 - 9/100 * max 0 (min 100 m) := by ring
  rw [hlin]
  have h1 : (1:ℚ) ≤ 10 - 9/100 * max 0 (min 100 m) := by linarith
  rw [max_eq_right h1]

/-- Normal form of the air_api_fetcher.py air scaling: identical to app.py. -/
theorem scale_maqi_fetcher_normal (m : ℚ) :
    AirFetcher.scale_maqi_to_score m = pyRound1 (10 - 9/100 * max 0 (min 100 m)) := by
  simp only [AirFetcher.scale_maqi_to_score]
  congr 1
  ring

theorem scale_maqi_app_twenty : AppServer.scale_maqi_to_score 20 = 8.2 := by
  rw [scale_maqi_app_normal]
  have : max (0:ℚ) (min 100 20) = 20 := by
    rw [min_eq_right (by norm_num), max_eq_right (by norm_num)]
  rw [this]
  exact pyRound1_eq_low 82 (by norm_num) (by norm_num) (by norm_num)

/-- Closed form of the app.py weather rating on a present temperature. -/
theorem weather_rating_app_formula (t : ℚ) (c : Option String) :
    AppServer.calculate_weather_rating ⟨⟨some t, c⟩⟩
      = pyRound1 (max 1 (10 - (|t - 25| / 65) * 10)) := rfl

theorem weather_rating_app_optimal (c : Option String) :
    AppServer.calculate_weather_rating ⟨⟨some 25, c⟩⟩ = 10 := by
  rw [weather_rating_app_formula]
  have : max (1:ℚ) (10 - (|25 - 25| / 65) * 10) = 10 := by
    rw [show |(25:ℚ) - 25| = 0 by norm_num]
    norm_num
  rw [this]
  exact pyRound1_eq_low 100 (by norm_num) (by norm_num) (by norm_num)

/-- The weather rating's floor value 1 is reached for a deviation of 65. -/
theorem weather_rating_app_floor {t : ℚ} (c : Option String) (h : 65 ≤ |t - 25|) :
    AppServer.calculate_weather_rating ⟨⟨some t, c⟩⟩ = 1 := by
  rw [weather_rating_app_formula]
  have : max (1:ℚ) (10 - (|t - 25| / 65) * 10) = 1 := by
    apply max_eq_left
    have : (10:ℚ) ≤ (|t - 25| / 65) * 10 := by
      have h65 : (|t - 25| / 65) ≥ 1 := by
        rw [ge_iff_le, le_div_iff₀ (by norm_num : (0:ℚ) < 65)]
        linarith
      linarith
    linarith
  rw [this]
  exact pyRound1_eq_low 10 (by norm_num) (by norm_num) (by norm_num)

/-- Closed form of the weather.py weather rating on a present temperature. -/
theorem weather_rating_py_formula (t : ℚ) (c : Option String) :
    WeatherPy.calculate_weather_rating ⟨⟨some t, c⟩⟩
      = .ok (pyRound2 (max 0 (10 - (|t - 25| / 65) * 10))) := rfl

namespace TransitScore

theorem atan2_nonneg {y x : ℝ} (hy : 0 ≤ y) : 0 ≤ atan2 y x := by
  unfold atan2
  split
  · rename_i h
    have : Real.arctan 0 ≤ Real.arctan (y / x) :=
      Real.arctan_strictMono.monotone (div_nonneg hy h.le)
    rwa [Real.arctan_zero] at this
  · split
    · have h1 := Real.neg_pi_div_two_lt_arctan (y / x)
      have h2 := Real.pi_pos
      linarith
    · split
      · rename_i h
        exact absurd hy (not_le.mpr h.2)
      · split
        · have h2 := Real.pi_pos
          linarith
        · split
          · rename_i h
            exact absurd hy (not_le.mpr h.2)
          · exact le_refl 0

theorem haversine_self (lat lon : ℝ) : haversine_distance lat lon lat lon = 0 := by
  simp only [haversine_distance, radians]
  norm_num
  simp [atan2, Real.arctan_zero]

theorem haversine_nonneg (lat1 lon1 lat2 lon2 : ℝ) :
    0 ≤ haversine_distance lat1 lon1 lat2 lon2 := by
  simp only [haversine_distance]
  exact mul_nonneg (by norm_num)
    (mul_nonneg (by norm_num) (atan2_nonneg (Real.sqrt_nonneg _)))

theorem transit_score_of_distance_zero : transit_score_of_distance 0 = 10 := by
  simp only [transit_score_of_distance]
  rw [min_eq_left (by norm_num : (0:ℝ) ≤ 15)]
  rw [show (10:ℝ) + 0 * (2 - 10) / 15 = 10 by ring]
  rw [max_eq_right (by norm_num : (1:ℝ) ≤ 10)]
  exact pyRound1_eq_low 100 (by norm_num) (by norm_num) (by norm_num)

theorem transit_score_of_distance_far {d : ℝ} (h : 15 ≤ d) :
    transit_score_of_distance d = 2 := by
  simp only [transit_score_of_distance]
  rw [min_eq_right h]
  rw [show (10:ℝ) + 15 * (2 - 10) / 15 = 2 by ring]
  rw [max_eq_right (by norm_num : (1:ℝ) ≤ 2)]
  exact pyRound1_eq_low 20 (by norm_num) (by norm_num) (by norm_num)

theorem transit_score_of_distance_mid {d : ℝ} (_h0 : 0 ≤ d) (h15 : d ≤ 15) :
    transit_score_of_distance d = pyRound1 (10 - d * 8 / 15) := by
  simp only [transit_score_of_distance]
  rw [min_eq_left h15]
  have hlin : (10:ℝ) + d * (2 - 10) / 15 = 10 - d * 8 / 15 := by ring
  rw [hlin]
  have h2 : (2:ℝ) ≤ 10 - d * 8 / 15 := by linarith
  rw [max_eq_right (by linarith : (1:ℝ) ≤ 10 - d * 8 / 15)]

/-- The score of `get_transit_score` is the pure distance scaling applied to
the haversine distance from the downtown hub. -/
theorem get_transit_score_fst (lat lon : ℝ) :
    (get_transit_score lat lon).1 = transit_score_of_distance
      (haversine_distance lat lon CALGARY_DOWNTOWN_LAT CALGARY_DOWNTOWN_LNG) := rfl

theorem get_transit_score_hub :
    (get_transit_score CALGARY_DOWNTOWN_LAT CALGARY_DOWNTOWN_LNG).1 = 10 := by
  rw [get_transit_score_fst, haversine_self, transit_score_of_distance_zero]

/-- For nonnegative distances the transit score stays in [2, 10] and the
floor `max 1` inside the source is redundant. -/
theorem transit_score_of_distance_bounds {d : ℝ} (hd : 0 ≤ d) :
    2 ≤ transit_score_of_distance d ∧ transit_score_of_distance d ≤ 10 ∧
    transit_score_of_distance d = pyRound1 (10 + min d 15 * (2 - 10) / 15) := by
  have hc0 : (0:ℝ) ≤ min d 15 := le_min hd (by norm_num)
  have hc15 : min d 15 ≤ 15 := min_le_right _ _
  have hs2 : (2:ℝ) ≤ 10 + min d 15 * (2 - 10) / 15 := by linarith
  have hs10 : 10 + min d 15 * (2 - 10) / 15 ≤ 10 := by linarith
  have heq : transit_score_of_distance d = pyRound1 (10 + min d 15 * (2 - 10) / 15) := by
    simp only [transit_score_of_distance]
    rw [max_eq_right (by linarith : (1:ℝ) ≤ 10 + min d 15 * (2 - 10) / 15)]
  refine ⟨?_, ?_, heq⟩
  · rw [heq]
    exact le_pyRound1 hs2 ⟨20, by norm_num⟩
  · rw [heq]
    exact pyRound1_le hs10 ⟨100, by norm_num⟩

end TransitScore

/-! The claims. -/

/-- C3: for every MAQI value m the air scaling is monotonically
non-increasing in m, equals 10.0 for m ≤ 0 and 1.0 for m ≥ 100, equals the
linear map 10 - 0.09*m rounded to one decimal in between, and the two
implementations of the function (app.py and air_api_fetcher.py) agree on
every input. -/
theorem C3_air_scale_contract :
    (∀ m₁ m₂ : ℚ, m₁ ≤ m₂ →
      AppServer.scale_maqi_to_score m₂ ≤ AppServer.scale_maqi_to_score m₁) ∧
    (∀ m : ℚ, m ≤ 0 → AppServer.scale_maqi_to_score m = 10) ∧
    (∀ m : ℚ, 100 ≤ m → AppServer.scale_maqi_to_score m = 1) ∧
    (∀ m : ℚ, 0 ≤ m → m ≤ 100 →
      AppServer.scale_maqi_to_score m = pyRound1 (10 - 0.09 * m)) ∧
    (∀ m : ℚ, AirFetcher.scale_maqi_to_score m = AppServer.scale_maqi_to_score m) := by
  refine ⟨?_, ?_, ?_, ?_, ?_⟩
  · intro m₁ m₂ h
    rw [scale_maqi_app_normal, scale_maqi_app_normal]
    apply pyRound1_mono
    have hm : max (0:ℚ) (min 100 m₁) ≤ max 0 (min 100 m₂) :=
      max_le_max le_rfl (min_le_min le_rfl h)
    linarith
  · intro m h
    rw [scale_maqi_app_normal, min_eq_right (by linarith : m ≤ (100:ℚ)), max_eq_left h]
    rw [show (10:ℚ) - 9/100 * 0 = 10 by ring]
    exact pyRound1_eq_low 100 (by norm_num) (by norm_num) (by norm_num)
  · intro m h
    rw [scale_maqi_app_normal, min_eq_left h, max_eq_right (by norm_num : (0:ℚ) ≤ 100)]
    rw [show (10:ℚ) - 9/100 * 100 = 1 by ring]
    exact pyRound1_eq_low 10 (by norm_num) (by norm_num) (by norm_num)
  · intro m h0 h100
    rw [scale_maqi_app_normal, min_eq_right h100, max_eq_right h0]
    congr 1
    norm_num
  · intro m
    rw [scale_maqi_fetcher_normal, scale_maqi_app_normal]

/-- Witness for C3 at concrete inputs. -/
theorem C3_air_scale_contract_witness :
    ((3:ℚ) ≤ 7 ∧ AppServer.scale_maqi_to_score 7 ≤ AppServer.scale_maqi_to_score 3) ∧
    ((-5:ℚ) ≤ 0 ∧ AppServer.scale_maqi_to_score (-5) = 10) ∧
    ((100:ℚ) ≤ 120 ∧ AppServer.scale_maqi_to_score 120 = 1) ∧
    ((0:ℚ) ≤ 20 ∧ (20:ℚ) ≤ 100 ∧
      AppServer.scale_maqi_to_score 20 = pyRound1 (10 - 0.09 * 20)) :=
  ⟨⟨by norm_num, C3_air_scale_contract.1 3 7 (by norm_num)⟩,
   ⟨by norm_num, C3_air_scale_contract.2.1 (-5) (by norm_num)⟩,
   ⟨by norm_num, C3_air_scale_contract.2.2.1 120 (by norm_num)⟩,
   ⟨by norm_num, by norm_num, C3_air_scale_contract.2.2.2.1 20 (by norm_num) (by norm_num)⟩⟩

/-- C2: loading a weight configuration raises an error iff the sum of the
weights deviates from 1.0 by more than 0.001; a configuration summing to 0.9
fails; the shipped WEIGHTS load successfully.  The source performs this check
at module import, before any request handler can run. -/
theorem C2_weight_fail_fast :
    (∀ w : AppServer.WeightConfig,
      (∃ e, AppServer.load_weights w = .error e) ↔
        0.001 < |AppServer.weightsSum w - 1|) ∧
    (∀ w : AppServer.WeightConfig, AppServer.weightsSum w = 0.9 →
      ∃ e, AppServer.load_weights w = .error e) ∧
    AppServer.load_weights AppServer.WEIGHTS = .ok AppServer.WEIGHTS := by
  have hiff : ∀ w : AppServer.WeightConfig,
      (∃ e, AppServer.load_weights w = .error e) ↔
        0.001 < |AppServer.weightsSum w - 1| := by
    intro w
    rw [AppServer.load_weights]
    split
    · rename_i h
      exact ⟨fun _ => h, fun _ => ⟨_, rfl⟩⟩
    · rename_i h
      constructor
      · rintro ⟨e, he⟩
        simp at he
      · intro hc
        exact absurd hc h
  refine ⟨hiff, ?_, ?_⟩
  · intro w hw
    apply (hiff w).mpr
    rw [hw]
    rw [show (0.9:ℚ) - 1 = -(1/10) by norm_num, abs_neg,
      abs_of_nonneg (by norm_num : (0:ℚ) ≤ 1/10)]
    norm_num
  · have hsum : AppServer.weightsSum AppServer.WEIGHTS - 1 = 0 := by
      norm_num [AppServer.weightsSum, AppServer.WEIGHTS]
    rw [AppServer.load_weights, hsum, abs_zero, if_neg (by norm_num)]

/-- Witness for C2: the configuration (0.4, 0.3, 0.2) sums to 0.9 and is
rejected at load time. -/
theorem C2_weight_fail_fast_witness :
    AppServer.weightsSum ⟨0.4, 0.3, 0.2⟩ = 0.9 ∧
    ∃ e, AppServer.load_weights ⟨0.4, 0.3, 0.2⟩ = .error e :=
  ⟨by norm_num [AppServer.weightsSum],
   C2_weight_fail_fast.2.1 ⟨0.4, 0.3, 0.2⟩ (by norm_num [AppServer.weightsSum])⟩

/-- C4 counterexample: the claim asserts every weather-rating implementation
returns 1.0 at t = -40, but the weather.py implementation returns 0.0 there
(it floors at 0, not 1, and rounds to two decimals). -/
theorem C4_weatherpy_at_minus40 :
    WeatherPy.calculate_weather_rating ⟨⟨some (-40), none⟩⟩ = .ok 0 ∧
    (Except.ok (0:ℚ) : Except String ℚ) ≠ .ok 1 := by
  constructor
  · rw [weather_rating_py_formula]
    rw [show |(-40:ℚ) - 25| = 65 by
      rw [show (-40:ℚ) - 25 = -65 by norm_num, abs_neg,
        abs_of_nonneg (by norm_num : (0:ℚ) ≤ 65)]]
    rw [show (10:ℚ) - (65/65) * 10 = 0 by ring, max_self]
    exact congrArg Except.ok (pyRound2_eq_low 0 (by norm_num) (by norm_num) (by norm_num))
  · intro h
    rw [Except.ok.injEq] at h
    exact absurd h (by norm_num)

/-- C4 amended: the app.py weather rating satisfies the claimed contract
exactly (rating = max(1.0, 10 - (|t-25|/65)*10) rounded to one decimal, with
10.0 at t=25 and 1.0 at t=-40 and t=90); the weather.py implementation
instead computes max(0, 10 - (|t-25|/65)*10) rounded to two decimals. -/
theorem C4_weather_rating_amended :
    (∀ (t : ℚ) (c : Option String),
      AppServer.calculate_weather_rating ⟨⟨some t, c⟩⟩
        = pyRound1 (max 1 (10 - (|t - 25| / 65) * 10))) ∧
    (∀ c : Option String, AppServer.calculate_weather_rating ⟨⟨some 25, c⟩⟩ = 10) ∧
    (∀ c : Option String, AppServer.calculate_weather_rating ⟨⟨some (-40), c⟩⟩ = 1) ∧
    (∀ c : Option String, AppServer.calculate_weather_rating ⟨⟨some 90, c⟩⟩ = 1) ∧
    (∀ (t : ℚ) (c : Option String),
      WeatherPy.calculate_weather_rating ⟨⟨some t, c⟩⟩
        = .ok (pyRound2 (max 0 (10 - (|t - 25| / 65) * 10)))) := by
  refine ⟨weather_rating_app_formula, weather_rating_app_optimal, ?_, ?_,
    weather_rating_py_formula⟩
  · intro c
    apply weather_rating_app_floor c
    rw [show (-40:ℚ) - 25 = -65 by norm_num, abs_neg,
      abs_of_nonneg (by norm_num : (0:ℚ) ≤ 65)]
  · intro c
    apply weather_rating_app_floor c
    rw [show (90:ℚ) - 25 = 65 by norm_num,
      abs_of_nonneg (by norm_num : (0:ℚ) ≤ 65)]

/-- C9: both weather-rating implementations are symmetric around the 25°C
optimum: the rating at 25+d equals the rating at 25-d. -/
theorem C9_weather_symmetry :
    (∀ (d : ℚ) (c₁ c₂ : Option String),
      AppServer.calculate_weather_rating ⟨⟨some (25 + d), c₁⟩⟩
        = AppServer.calculate_weather_rating ⟨⟨some (25 - d), c₂⟩⟩) ∧
    (∀ (d : ℚ) (c₁ c₂ : Option String),
      WeatherPy.calculate_weather_rating ⟨⟨some (25 + d), c₁⟩⟩
        = WeatherPy.calculate_weather_rating ⟨⟨some (25 - d), c₂⟩⟩) := by
  have habs : ∀ d : ℚ, |25 + d - 25| = |25 - d - 25| := by
    intro d
    rw [show (25:ℚ) + d - 25 = d by ring, show (25:ℚ) - d - 25 = -d by ring, abs_neg]
  constructor
  · intro d c₁ c₂
    rw [weather_rating_app_formula, weather_rating_app_formula, habs]
  · intro d c₁ c₂
    rw [weather_rating_py_formula, weather_rating_py_formula, habs]

/-- All failure modes of the app.py air adapter: missing credential, raised
fetch (network failure, non-200 status, malformed body) and, on a parsed
body, location not found or missing index value. -/
def air_app_failed (apiKey : Option String) (fetch : Except String AirBody) : Bool :=
  apiKey.isNone ||
    (match fetch with
     | .error _ => true
     | .ok d => !d.found || d.index.value.isNone)

/-- All failure modes of the air_api_fetcher.py adapter: `_fetch_data`
returned None, location not found, or missing index value. -/
def air_fetcher_failed (air_data : Option AirBody) : Bool :=
  match air_data with
  | none => true
  | some d => !d.found || d.index.value.isNone

/-- C6: on every failure mode, both air adapters return the fixed default
score 5.5 with a description containing "Data unavailable"; being total
functions of the modelled outcomes, they never propagate an exception. -/
theorem C6_air_default_on_failure :
    (∀ (key : Option String) (fetch : Except String AirBody),
      air_app_failed key fetch = true →
        (AppServer.get_air_quality_score key fetch).1 = 5.5 ∧
        containsSub (AppServer.get_air_quality_score key fetch).2
          ("Data unavailable") = true) ∧
    (∀ air_data : Option AirBody,
      air_fetcher_failed air_data = true →
        (AirFetcher.get_current_air air_data).1 = 5.5 ∧
        containsSub (AirFetcher.get_current_air air_data).2.2
          ("Data unavailable") = true) := by
  constructor
  · intro key fetch h
    match key, fetch with
    | none, _ => exact ⟨rfl, by rfl⟩
    | some k, .error e => exact ⟨rfl, by rfl⟩
    | some k, .ok d =>
      rcases d with ⟨found, value, qual⟩
      cases found
      · exact ⟨rfl, by rfl⟩
      · cases value
        · exact ⟨rfl, by rfl⟩
        · simp [air_app_failed] at h
  · intro air_data h
    match air_data with
    | none => exact ⟨rfl, by rfl⟩
    | some d =>
      rcases d with ⟨found, value, qual⟩
      cases found
      · exact ⟨rfl, by rfl⟩
      · cases value
        · exact ⟨rfl, by rfl⟩
        · simp [air_fetcher_failed] at h

/-- Witness for C6: a missing API key on the app adapter, and a failed fetch
on the fetcher adapter. -/
theorem C6_air_default_on_failure_witness :
    (air_app_failed none (.ok ⟨true, some 20, none⟩) = true ∧
      (AppServer.get_air_quality_score none (.ok ⟨true, some 20, none⟩)).1 = 5.5 ∧
      containsSub (AppServer.get_air_quality_score none (.ok ⟨true, some 20, none⟩)).2
        ("Data unavailable") = true) ∧
    (air_fetcher_failed none = true ∧
      (AirFetcher.get_current_air none).1 = 5.5 ∧
      containsSub (AirFetcher.get_current_air none).2.2 ("Data unavailable") = true) :=
  ⟨⟨rfl, C6_air_default_on_failure.1 none (.ok ⟨true, some 20, none⟩) rfl⟩,
   ⟨rfl, C6_air_default_on_failure.2 none rfl⟩⟩

/-- C7 counterexample: on a successful fetch whose body lacks a temperature,
the app.py weather adapter returns score 5.5 but the description is the
weather condition ("Weather: Clear"), which does not contain
"Data unavailable" as the claim requires. -/
theorem C7_weather_missing_temp_desc :
    AppServer.get_weather_score (some ("k")) (.ok ⟨⟨none, some ("Clear")⟩⟩)
      = (5.5, "Weather: Clear") ∧
    containsSub ("Weather: Clear") ("Data unavailable") = false := by
  exact ⟨by rfl, by decide⟩

/-- C7 amended: on a raised fetch the weather adapter returns the default
score 5.5 with description "Weather: Data unavailable"; when the response
merely lacks a numeric temperature it still returns score 5.5 but describes
the weather condition instead of "Data unavailable"; with no API key it
returns (5.5, "Weather: API key missing"); being a total function of the
modelled outcomes it never propagates an exception. -/
theorem C7_weather_default_amended :
    (∀ (key : String) (e : String),
      AppServer.get_weather_score (some key) (.error e)
        = (5.5, "Weather: Data unavailable")) ∧
    (∀ (key : String) (c : Option String),
      AppServer.get_weather_score (some key) (.ok ⟨⟨none, c⟩⟩)
        = (5.5, "Weather: " ++ pyTitle (c.getD ("Unknown")))) ∧
    (∀ fetch : Except String WeatherBody,
      AppServer.get_weather_score none fetch = (5.5, "Weather: API key missing")) :=
  ⟨fun _ _ => rfl, fun _ _ => rfl, fun _ => rfl⟩

/-- C5: the transit score is 10.0 at the downtown hub (whose self-distance
under the haversine formula is 0); the score of any coordinate is the pure
linear scaling of its haversine distance from the hub; on [0, 15] km the
scaling is the rounded linear map 10 - d*8/15; at or beyond 15 km it is
exactly 2.0. -/
theorem C5_transit_contract :
    ((TransitScore.get_transit_score TransitScore.CALGARY_DOWNTOWN_LAT
        TransitScore.CALGARY_DOWNTOWN_LNG).1 = 10 ∧
      TransitScore.haversine_distance TransitScore.CALGARY_DOWNTOWN_LAT
        TransitScore.CALGARY_DOWNTOWN_LNG TransitScore.CALGARY_DOWNTOWN_LAT
        TransitScore.CALGARY_DOWNTOWN_LNG = 0) ∧
    (∀ lat lon : ℝ, (TransitScore.get_transit_score lat lon).1
      = TransitScore.transit_score_of_distance (TransitScore.haversine_distance lat lon
          TransitScore.CALGARY_DOWNTOWN_LAT TransitScore.CALGARY_DOWNTOWN_LNG)) ∧
    (∀ d : ℝ, 0 ≤ d → d ≤ 15 →
      TransitScore.transit_score_of_distance d = pyRound1 (10 - d * 8 / 15)) ∧
    (∀ d : ℝ, 15 ≤ d → TransitScore.transit_score_of_distance d = 2) := by
  refine ⟨⟨TransitScore.get_transit_score_hub, TransitScore.haversine_self _ _⟩,
    fun lat lon => TransitScore.get_transit_score_fst lat lon, ?_, ?_⟩
  · intro d h0 h15
    exact TransitScore.transit_score_of_distance_mid h0 h15
  · intro d h
    exact TransitScore.transit_score_of_distance_far h

/-- Witness for C5: the linear branch at 3 km and the far branch at 20 km. -/
theorem C5_transit_contract_witness :
    ((0:ℝ) ≤ 3 ∧ (3:ℝ) ≤ 15 ∧
      TransitScore.transit_score_of_distance 3 = pyRound1 ((10:ℝ) - 3 * 8 / 15)) ∧
    ((15:ℝ) ≤ 20 ∧ TransitScore.transit_score_of_distance 20 = 2) :=
  ⟨⟨by norm_num, by norm_num, C5_transit_contract.2.2.1 3 (by norm_num) (by norm_num)⟩,
   ⟨by norm_num, C5_transit_contract.2.2.2 20 (by norm_num)⟩⟩

/-- C10: for every coordinate the transit score lies in [2.0, 10.0], and the
max(1.0, score) floor of the source never changes the computed value: the
returned score equals the rounded linear formula applied without that floor,
because the haversine distance is nonnegative and clamped at 15 km. -/
theorem C10_transit_range :
    ∀ lat lon : ℝ,
      2 ≤ (TransitScore.get_transit_score lat lon).1 ∧
      (TransitScore.get_transit_score lat lon).1 ≤ 10 ∧
      (TransitScore.get_transit_score lat lon).1
        = pyRound1 (10 + min (TransitScore.haversine_distance lat lon
            TransitScore.CALGARY_DOWNTOWN_LAT TransitScore.CALGARY_DOWNTOWN_LNG) 15
            * (2 - 10) / 15) := by
  intro lat lon
  rw [TransitScore.get_transit_score_fst]
  exact TransitScore.transit_score_of_distance_bounds
    (TransitScore.haversine_nonneg lat lon _ _)

/-- C1: for every coordinate and every upstream outcome the composite total
is air*0.40 + weather*0.30 + transit*0.30 rounded to one decimal, and the
breakdown reports each factor's score, description and configured weight. -/
theorem C1_composite_total_breakdown :
    ∀ (lat lon : ℝ) (key : Option String) (airF : Except String AirBody)
      (weatherF : Except String WeatherBody),
      (AppServer.calculate_city_quality_score lat lon key airF weatherF).city_quality_score
        = pyRound1 (((AppServer.get_air_quality_score key airF).1 : ℝ) * 0.40
            + ((AppServer.get_weather_score key weatherF).1 : ℝ) * 0.30
            + (TransitScore.get_transit_score lat lon).1 * 0.30) ∧
      (AppServer.calculate_city_quality_score lat lon key airF weatherF).air_quality
        = ⟨((AppServer.get_air_quality_score key airF).1 : ℝ),
           (AppServer.get_air_quality_score key airF).2, 0.40⟩ ∧
      (AppServer.calculate_city_quality_score lat lon key airF weatherF).weather_rating
        = ⟨((AppServer.get_weather_score key weatherF).1 : ℝ),
           (AppServer.get_weather_score key weatherF).2, 0.30⟩ ∧
      (AppServer.calculate_city_quality_score lat lon key airF weatherF).transit_score
        = ⟨(TransitScore.get_transit_score lat lon).1,
           (TransitScore.get_transit_score lat lon).2, 0.30⟩ := by
  intro lat lon key airF weatherF
  refine ⟨?_, rfl, rfl, rfl⟩
  simp only [AppServer.calculate_city_quality_score]
  congr 1

/-- C8: at the hub coordinate, with the air upstream answering found with
MAQI 20 and qualification "Good" and the weather upstream answering 25°C and
condition "Clear", the composite has air 8.2, weather 10.0, transit 10.0 and
total exactly 9.3. -/
theorem C8_scenario_hub :
    (AppServer.calculate_city_quality_score TransitScore.CALGARY_DOWNTOWN_LAT
        TransitScore.CALGARY_DOWNTOWN_LNG (some ("key"))
        (.ok ⟨true, some 20, some ("Good")⟩)
        (.ok ⟨⟨some 25, some ("Clear")⟩⟩)).air_quality.score = 8.2 ∧
    (AppServer.calculate_city_quality_score TransitScore.CALGARY_DOWNTOWN_LAT
        TransitScore.CALGARY_DOWNTOWN_LNG (some ("key"))
        (.ok ⟨true, some 20, some ("Good")⟩)
        (.ok ⟨⟨some 25, some ("Clear")⟩⟩)).weather_rating.score = 10 ∧
    (AppServer.calculate_city_quality_score TransitScore.CALGARY_DOWNTOWN_LAT
        TransitScore.CALGARY_DOWNTOWN_LNG (some ("key"))
        (.ok ⟨true, some 20, some ("Good")⟩)
        (.ok ⟨⟨some 25, some ("Clear")⟩⟩)).transit_score.score = 10 ∧
    (AppServer.calculate_city_quality_score TransitScore.CALGARY_DOWNTOWN_LAT
        TransitScore.CALGARY_DOWNTOWN_LNG (some ("key"))
        (.ok ⟨true, some 20, some ("Good")⟩)
        (.ok ⟨⟨some 25, some ("Clear")⟩⟩)).city_quality_score = 9.3 := by
  have hair : (AppServer.get_air_quality_score (some ("key"))
      (.ok ⟨true, some 20, some ("Good")⟩)).1 = 8.2 := scale_maqi_app_twenty
  have hweather : (AppServer.get_weather_score (some ("key"))
      (.ok ⟨⟨some 25, some ("Clear")⟩⟩)).1 = 10 := weather_rating_app_optimal (some ("Clear"))
  have htransit := TransitScore.get_transit_score_hub
  refine ⟨?_, ?_, ?_, ?_⟩
  · show ((AppServer.get_air_quality_score (some ("key"))
      (.ok ⟨true, some 20, some ("Good")⟩)).1 : ℝ) = 8.2
    rw [hair]
    norm_num
  · show ((AppServer.get_weather_score (some ("key"))
      (.ok ⟨⟨some 25, some ("Clear")⟩⟩)).1 : ℝ) = 10
    rw [hweather]
    norm_num
  · exact htransit
  · simp only [AppServer.calculate_city_quality_score]
    rw [hair, hweather, htransit]
    have htot : ((8.2:ℚ) : ℝ) * (AppServer.WEIGHTS.air_quality : ℝ)
        + ((10:ℚ) : ℝ) * (AppServer.WEIGHTS.weather_rating : ℝ)
        + 10 * (AppServer.WEIGHTS.transit_score : ℝ) = 9.28 := by
      norm_num [AppServer.WEIGHTS]
    rw [htot]
    exact pyRound1_eq_high 92 (by norm_num) (by norm_num) (by norm_num)

end Snack
